import Mathlib

/-!
Verification of `rose_draw.py`: a shallow embedding of the curve sampler
(`animate_rose`'s `theta`, `r`, `x`, `y` arrays), the frame-reveal scheduler
(`frames`, `idx_per_frame`, the `init` and `update` callbacks), and the
optional GIF-export tail of `animate_rose`. Python floats are modelled as
exact rationals (for the frame-count arithmetic) and reals (for the curve
geometry); Python's `int()` conversion is modelled as truncation toward zero;
integer `//` and `int(a / b)` on nonnegative values agree with `Nat` floor
division.
-/

namespace RoseDraw

/-- CurveParameters from the spec data model: `k` (petal multiplier),
`a` (scale), `pointCount` (sampling resolution), as passed to `animate_rose`. -/
structure CurveParameters where
  k : ℤ
  a : ℝ
  pointCount : ℕ

/-- The `i`-th sample of `theta = np.linspace(0, 2*np.pi, points)`:
`i * 2π / (points - 1)` for `i < points` (the linspace step). -/
noncomputable def theta (p : CurveParameters) (i : ℕ) : ℝ :=
  (i : ℝ) * (2 * Real.pi) / ((p.pointCount : ℝ) - 1)

/-- The radius array `r = a * np.cos(k * theta)` at index `i`. -/
noncomputable def rad (p : CurveParameters) (i : ℕ) : ℝ :=
  p.a * Real.cos ((p.k : ℝ) * theta p i)

/-- The point `(x[i], y[i])` with `x = r * np.cos(theta)` and
`y = r * np.sin(theta)`. -/
noncomputable def rosePoint (p : CurveParameters) (i : ℕ) : ℝ × ℝ :=
  (rad p i * Real.cos (theta p i), rad p i * Real.sin (theta p i))

/-- The full sampled point list of length `points` (the pair of arrays
`x`, `y` viewed as a list of 2D points). -/
noncomputable def pointSequence (p : CurveParameters) : List (ℝ × ℝ) :=
  (List.range p.pointCount).map (rosePoint p)

/-- Python `int()` applied to a (here rational-modelled) float:
truncation toward zero. -/
def pyInt (q : ℚ) : ℤ :=
  if 0 ≤ q then ⌊q⌋ else ⌈q⌉

/-- `base_frames = 240` from the source. -/
def base_frames : ℕ := 240

/-- `frames = max(60, int(base_frames / max(0.1, speed)))` from the source. -/
def framesOf (speed : ℚ) : ℕ :=
  max 60 (pyInt ((base_frames : ℚ) / max (1 / 10) speed)).toNat

/-- `idx_per_frame = max(1, len(x) // frames)` from the source, with
`points = len(x)`. -/
def idxPerFrame (points frames : ℕ) : ℕ :=
  max 1 (points / frames)

/-- The reveal count `i = min(len(x), (frame + 1) * idx_per_frame)` computed
by the `update` callback at 0-based frame index `f`. -/
def revealedCount (points ipf f : ℕ) : ℕ :=
  min points ((f + 1) * ipf)

/-- The percent value `int(100 * i / len(x))`: for `0 ≤ i ≤ points` the
quotient is nonnegative, so Python truncation is floor division. -/
def percent (revealed points : ℕ) : ℕ :=
  100 * revealed / points

/-- The observable result of one `update(frame)` call: the polyline data
`(x[:i], y[:i])` as a point list, and the percent label text `f"{pct}%"`
(polymorphic in the point type so the scheduler logic stays executable). -/
def updateState {α : Type} (pts : List α) (ipf f : ℕ) : List α × String :=
  let i := min pts.length ((f + 1) * ipf)
  (pts.take i, toString (percent i pts.length) ++ "%")

/-- The observable result of the `init` callback: empty polyline data and
the label `"0%"`. -/
def initState {α : Type} : List α × String :=
  ([], "0%")

/-- Observable outcome of the tail of `animate_rose` after the animation is
built: whether `anim.save` was attempted, the messages printed, and whether
`plt.show()` was reached. -/
structure ExportOutcome where
  attempted : Bool
  printed : List String
  shown : Bool
  deriving DecidableEq, Repr

/-- The `if save: try/except` block followed by `plt.show()`. `save` is the
optional `--save` path (Python truthiness: `None` and `""` are falsy);
`saveResult` is the outcome of the external `anim.save` call, an exception
being modelled as `Except.error` carrying the exception text `e`. -/
def sessionTail (save : Option String) (saveResult : String → Except String Unit) :
    ExportOutcome :=
  match save with
  | none => ⟨false, [], true⟩
  | some path =>
    if path.isEmpty then ⟨false, [], true⟩
    else
      match saveResult path with
      | Except.ok _ => ⟨true, ["Saved animation to " ++ path], true⟩
      | Except.error e => ⟨true, ["Could not save GIF: " ++ e], true⟩

/-- The spec's phrasing of the frame-count formula, for comparison with the
source's `framesOf`: `max(60, round(240 / max(0.1, speed)))` with rounding
to the nearest integer. -/
def framesSpecRound (speed : ℚ) : ℕ :=
  max 60 (round ((base_frames : ℚ) / max (1 / 10) speed)).toNat

/-- The sampled point list has one entry per index below `pointCount`. -/
theorem pointSequence_length (p : CurveParameters) :
    (pointSequence p).length = p.pointCount := by
  simp [pointSequence]

/-- C1 (counterexample): with `pointCount = 1000` and `speed = 2.0`
(`frames = 120`, `idx_per_frame = 8`), the reveal count at the last frame is
`min 1000 (120 * 8) = 960`, not `pointCount = 1000`. -/
theorem lastFrame_reveal_ne_pointCount :
    revealedCount 1000 (idxPerFrame 1000 (framesOf 2)) (framesOf 2 - 1) ≠ 1000 := by
  have h : framesOf 2 = 120 := by
    norm_num [framesOf, pyInt, base_frames]
    decide
  rw [h]
  decide

/-- C1 (amended): the reveal count at the last frame equals
`min pointCount (frameCount * idxPerFrame)`; its shortfall from `pointCount`
is at most `pointCount % frameCount`, and it equals `pointCount` exactly when
`frameCount * idxPerFrame ≥ pointCount` (which need not hold). -/
theorem lastFrame_reveal_characterization (points frames : ℕ) (hf : 1 ≤ frames) :
    revealedCount points (idxPerFrame points frames) (frames - 1)
        = min points (frames * idxPerFrame points frames) ∧
    points - revealedCount points (idxPerFrame points frames) (frames - 1)
        ≤ points % frames ∧
    (revealedCount points (idxPerFrame points frames) (frames - 1) = points ↔
      points ≤ frames * idxPerFrame points frames) := by
  have hstep : frames - 1 + 1 = frames := by omega
  have h0 : revealedCount points (idxPerFrame points frames) (frames - 1)
      = min points (frames * idxPerFrame points frames) := by
    unfold revealedCount
    rw [hstep]
  refine ⟨h0, ?_, ?_⟩
  · rw [h0]
    have hdm := Nat.div_add_mod points frames
    have hle : frames * (points / frames) ≤ frames * idxPerFrame points frames :=
      Nat.mul_le_mul_left _ (le_max_right _ _)
    rcases le_or_lt points (frames * idxPerFrame points frames) with h | h
    · rw [min_eq_left h]
      omega
    · rw [min_eq_right h.le]
      omega
  · rw [h0]
    exact min_eq_left_iff

/-- C1 (amended, witness): at `pointCount = 3000`, `frameCount = 240` the
last-frame reveal count is exactly `min 3000 (240 * 12) = 3000`. -/
theorem lastFrame_reveal_characterization_witness :
    revealedCount 3000 (idxPerFrame 3000 240) (240 - 1)
      = min 3000 (240 * idxPerFrame 3000 240) :=
  (lastFrame_reveal_characterization 3000 240 (by decide)).1

/-- C2 (counterexample): at `speed = 1.3` the source computes
`max(60, int(240 / 1.3)) = 184`, while the claimed formula with rounding to
the nearest integer gives `max(60, round(240 / 1.3)) = 185`. -/
theorem framesOf_ne_roundSpec : framesOf (13 / 10) ≠ framesSpecRound (13 / 10) := by
  have h1 : framesOf (13 / 10) = 184 := by
    norm_num [framesOf, pyInt, base_frames]
    decide
  have h2 : framesSpecRound (13 / 10) = 185 := by
    norm_num [framesSpecRound, base_frames, round_eq]
    decide
  rw [h1, h2]
  decide

/-- C2 (amended): for every speed the frame count equals
`max(60, ⌊240 / max(0.1, speed)⌋)` — Python `int()` truncates toward zero,
which is floor here because the quotient is nonnegative — and for
`speed = 1.0` the frame count is `240`. -/
theorem framesOf_eq_floor_clamp (speed : ℚ) :
    framesOf speed = max 60 (⌊(240 : ℚ) / max (1 / 10) speed⌋).toNat ∧
    framesOf 1 = 240 := by
  constructor
  · have hq : (0 : ℚ) ≤ ((240 : ℕ) : ℚ) / max (1 / 10) speed := by
      apply div_nonneg (by norm_num)
      exact le_trans (by norm_num) (le_max_left _ _)
    unfold framesOf pyInt base_frames
    rw [if_pos hq]
    norm_num
  · norm_num [framesOf, pyInt, base_frames]
    decide

/-- C3: at 0-based frame `f` the reveal count is
`min pointCount ((f + 1) * max 1 (pointCount / frameCount))`, and the
polyline set by `update` is exactly the prefix of the sampled point
sequence of that length. -/
theorem update_polyline_take_revealedCount (p : CurveParameters) (frames f : ℕ) :
    revealedCount p.pointCount (idxPerFrame p.pointCount frames) f
        = min p.pointCount ((f + 1) * max 1 (p.pointCount / frames)) ∧
    (updateState (pointSequence p) (idxPerFrame p.pointCount frames) f).1
        = (pointSequence p).take
            (revealedCount p.pointCount (idxPerFrame p.pointCount frames) f) ∧
    (updateState (pointSequence p) (idxPerFrame p.pointCount frames) f).1.length
        = revealedCount p.pointCount (idxPerFrame p.pointCount frames) f := by
  refine ⟨rfl, ?_, ?_⟩
  · unfold updateState revealedCount
    rw [pointSequence_length]
  · unfold updateState revealedCount
    rw [List.length_take, pointSequence_length]
    omega

/-- C4: the sampler produces exactly `pointCount` points; the `i`-th is
`(a·cos(k·θ_i)·cos(θ_i), a·cos(k·θ_i)·sin(θ_i))` with
`θ_i = i·2π/(pointCount − 1)`, as a pure function of the parameters. -/
theorem pointSequence_spec (p : CurveParameters) (hp : 2 ≤ p.pointCount) :
    (pointSequence p).length = p.pointCount ∧
    ∀ i, i < p.pointCount →
      (pointSequence p)[i]? =
        some (p.a * Real.cos ((p.k : ℝ) * ((i : ℝ) * (2 * Real.pi) / ((p.pointCount : ℝ) - 1)))
                * Real.cos ((i : ℝ) * (2 * Real.pi) / ((p.pointCount : ℝ) - 1)),
              p.a * Real.cos ((p.k : ℝ) * ((i : ℝ) * (2 * Real.pi) / ((p.pointCount : ℝ) - 1)))
                * Real.sin ((i : ℝ) * (2 * Real.pi) / ((p.pointCount : ℝ) - 1))) := by
  refine ⟨pointSequence_length p, fun i hi => ?_⟩
  simp [pointSequence, List.getElem?_map, List.getElem?_range, hi, rosePoint, rad, theta]

/-- C4 (witness): with `k = 7`, `a = 1.0`, `pointCount = 3000` the sampler
produces exactly `3000` points. -/
theorem pointSequence_spec_witness :
    (pointSequence ⟨7, 1, 3000⟩).length = 3000 :=
  (pointSequence_spec ⟨7, 1, 3000⟩ (by norm_num)).1

/-- C5: the label set by `update` at frame `f` is the integer
`⌊100 · revealedCount / pointCount⌋` followed by `"%"`, and the `init`
state is an empty polyline with label `"0%"`. -/
theorem update_percent_label_spec {α : Type} (pts : List α) (ipf f : ℕ) :
    (updateState pts ipf f).2 =
      toString (percent (revealedCount pts.length ipf f) pts.length) ++ "%" ∧
    (percent (revealedCount pts.length ipf f) pts.length : ℤ) =
      ⌊(100 * (revealedCount pts.length ipf f : ℚ)) / (pts.length : ℚ)⌋ ∧
    (initState : List α × String) = ([], "0%") := by
  refine ⟨rfl, ?_, rfl⟩
  have h := Rat.floor_intCast_div_natCast (100 * (revealedCount pts.length ipf f : ℤ))
    pts.length
  push_cast at h
  unfold percent
  rw [h]
  push_cast [Int.ofNat_div]
  rfl

/-- C6: the reveal count is monotone in the frame index: for `f1 < f2`
within the frame range, `revealedCount f1 ≤ revealedCount f2`. -/
theorem revealedCount_mono (points frames f1 f2 : ℕ) (h12 : f1 < f2)
    (h2 : f2 < frames) :
    revealedCount points (idxPerFrame points frames) f1 ≤
      revealedCount points (idxPerFrame points frames) f2 := by
  unfold revealedCount
  exact min_le_min le_rfl (Nat.mul_le_mul_right _ (by omega))

/-- C6 (witness): monotonicity at `points = 3000`, `frames = 240`,
`f1 = 0 < f2 = 1`. -/
theorem revealedCount_mono_witness :
    revealedCount 3000 (idxPerFrame 3000 240) 0 ≤
      revealedCount 3000 (idxPerFrame 3000 240) 1 :=
  revealedCount_mono 3000 240 0 1 (by decide) (by decide)

/-- C7: every speed at or below `0.1` yields the same frame count as
`speed = 0.1`, because the divisor is clamped at `0.1`. -/
theorem framesOf_speed_clamp (speed : ℚ) (h : speed ≤ 1 / 10) :
    framesOf speed = framesOf (1 / 10) := by
  unfold framesOf
  rw [max_eq_left h, max_self]

/-- C7 (witness): the frame count at `speed = 0.01` equals the frame
count at `speed = 0.1`. -/
theorem framesOf_speed_clamp_witness : framesOf (1 / 100) = framesOf (1 / 10) :=
  framesOf_speed_clamp (1 / 100) (by norm_num)

/-- C8: `plt.show()` is reached regardless of the export outcome; a failed
`anim.save` prints exactly one diagnostic carrying the exception text; and
with no `--save` path no export is attempted and nothing is printed. -/
theorem sessionTail_spec (save : Option String) (saveResult : String → Except String Unit) :
    (sessionTail save saveResult).shown = true ∧
    (save = none → (sessionTail save saveResult).attempted = false ∧
      (sessionTail save saveResult).printed = []) ∧
    ∀ path e, save = some path → path ≠ "" → saveResult path = Except.error e →
      (sessionTail save saveResult).printed = ["Could not save GIF: " ++ e] := by
  refine ⟨?_, ?_, ?_⟩
  · rcases save with _ | path
    · rfl
    · unfold sessionTail
      rcases hp : path.isEmpty with _ | _
      · rcases hr : saveResult path with _ | _ <;> simp [hp, hr]
      · simp [hp]
  · rintro rfl
    exact ⟨rfl, rfl⟩
  · rintro path e rfl hne hr
    have hp : path.isEmpty = false := by
      rcases h : path.isEmpty with _ | _
      · rfl
      · exact absurd ((String.isEmpty_iff path).mp h) hne
    simp [sessionTail, hp, hr]

/-- C8 (witness): with `--save out.gif` and a failing encoder raising
`"disk full"`, the diagnostic `"Could not save GIF: disk full"` is printed. -/
theorem sessionTail_spec_witness :
    (sessionTail (some "out.gif") (fun _ => Except.error "disk full")).printed
      = ["Could not save GIF: disk full"] :=
  (sessionTail_spec (some "out.gif") (fun _ => Except.error "disk full")).2.2
    "out.gif" "disk full" rfl (by decide) rfl

/-- C9: for every speed, the clamped divisor `max(0.1, speed)` is strictly
positive (never zero), and the frame count is at least `60`. -/
theorem framesOf_total_ge_60 (speed : ℚ) :
    0 < max (1 / 10 : ℚ) speed ∧ 60 ≤ framesOf speed :=
  ⟨lt_of_lt_of_le (by norm_num) (le_max_left _ _), le_max_left _ _⟩

/-- C10: with at least one point, every frame reveals at least
`min idxPerFrame pointCount ≥ 1` points (non-empty polyline from the first
update), and consecutive frames differ by at most `idxPerFrame`. -/
theorem revealedCount_lower_bound_and_step (points frames f : ℕ) (hn : 1 ≤ points) :
    1 ≤ min (idxPerFrame points frames) points ∧
    min (idxPerFrame points frames) points ≤
      revealedCount points (idxPerFrame points frames) f ∧
    revealedCount points (idxPerFrame points frames) (f + 1) -
      revealedCount points (idxPerFrame points frames) f ≤ idxPerFrame points frames := by
  refine ⟨le_min (le_max_left _ _) hn, ?_, ?_⟩
  · unfold revealedCount
    rw [min_comm (idxPerFrame points frames) points]
    exact min_le_min le_rfl (Nat.le_mul_of_pos_left _ (by omega))
  · unfold revealedCount
    have h : (f + 1 + 1) * idxPerFrame points frames
        = (f + 1) * idxPerFrame points frames + idxPerFrame points frames := by ring
    rw [h]
    generalize (f + 1) * idxPerFrame points frames = A
    omega

/-- C10 (witness): at `points = 3000`, `frames = 240`, `f = 0` the bounds
hold concretely. -/
theorem revealedCount_lower_bound_and_step_witness :
    1 ≤ min (idxPerFrame 3000 240) 3000 :=
  (revealedCount_lower_bound_and_step 3000 240 0 (by decide)).1

end RoseDraw
